import Mathlib

/-!
Verification development for the snakemake console-logging module
(`snakemake/logging.py`): a shallow embedding of the event logger, its
default console handler, the colorizing stream handler, and the resource
formatter, together with theorems settling the specified properties.

Conventions of the embedding:
* Python strings are `String`; Python lists are `List`; a Python value
  that may be `None` is an `Option`.
* The underlying leveled-logging engine is modelled by the list of calls
  `(severity, message)` a handler issues; the engine itself appends each
  rendered message to an output stream (`runCalls`).
* Reading a never-assigned attribute (`self.quiet` before `setup_logger`
  has run) raises `AttributeError`; the handler therefore returns
  `Except PyError (List (Level × String))`.
* Python float arithmetic (`done / total` and the `\x7b:.0%\x7d` format) is
  modelled exactly: IEEE-754 double-precision values are dyadic rationals
  with a 53-bit significand, and every rounding step is round-to-nearest,
  ties-to-even, computed here in exact integer arithmetic.
-/

namespace Snakemake

/-! ### Severities of the underlying logging engine -/

/-- Severity levels of the underlying `logging` engine used by the module
(`debug`, `info`, `warning`, `error`). -/
inductive Level where
  | debug
  | info
  | warning
  | error
  deriving DecidableEq, Repr

/-- Numeric value of a severity, as in the Python `logging` module
(DEBUG = 10, INFO = 20, WARNING = 30, ERROR = 40). -/
def severityValue : Level → Nat
  | .debug => 10
  | .info => 20
  | .warning => 30
  | .error => 40

/-- A record is visible at a given threshold when its severity value is at
least the threshold's value (the `logging` engine's filtering rule). -/
def visibleAt (threshold lvl : Level) : Bool :=
  severityValue threshold ≤ severityValue lvl

/-! ### Exact model of CPython float percentage formatting

The source renders progress as
`"\x7b\x7d of \x7b\x7d steps (\x7b:.0%\x7d) done".format(done, total, done / total)`.
`done / total` is IEEE-754 double division (round the exact rational to the
nearest 53-bit dyadic, ties to even); the `%` format then multiplies by 100
(again a double rounding) and prints the result with zero decimals
(rounding the exact decimal value of that double, ties to even). -/

/-- Fuel-driven floor of the base-2 logarithm (`natLog2 0 = 0`). -/
def log2Aux : Nat → Nat → Nat
  | 0, _ => 0
  | fuel + 1, n => if 2 ≤ n then log2Aux fuel (n / 2) + 1 else 0

/-- Floor of the base-2 logarithm of a natural number (0 for 0 and 1). -/
def natLog2 (n : Nat) : Nat :=
  log2Aux n n

/-- Round the rational `a / b` (`b > 0`) to the nearest natural number,
ties to even. -/
def rnhe (a b : Nat) : Nat :=
  let q := a / b
  let r := a % b
  if b < 2 * r then q + 1
  else if 2 * r < b then q
  else if q % 2 = 0 then q else q + 1

/-- Floor of the base-2 logarithm of the positive rational `a / b`
(`a, b ≥ 1`), as an integer (negative when `a < b`). -/
def qfloorLog2 (a b : Nat) : Int :=
  if b ≤ a then (natLog2 (a / b) : Int)
  else -((natLog2 ((b - 1) / a) : Int) + 1)

/-- The IEEE-754 double nearest to the positive rational `a / b`, as a pair
`(m, e)` whose value is `m * 2 ^ e`: the significand `m` is the ties-to-even
rounding of `(a / b) * 2 ^ (-e)` with `e` chosen so that `m` has 53 bits
(subnormals and overflow are unreachable for the inputs at hand). -/
def toDouble (a b : Nat) : Nat × Int :=
  let e : Int := qfloorLog2 a b - 52
  let m := if e ≤ 0 then rnhe (a * 2 ^ (-e).toNat) b else rnhe a (b * 2 ^ e.toNat)
  (m, e)

/-- The integer printed by CPython for `"\x7b:.0%\x7d".format(done / total)`,
without the trailing percent sign: double-divide `done` by `total`,
double-multiply by 100, then round the exact value of the result to an
integer, ties to even. Requires `total > 0` (the source raises
`ZeroDivisionError` otherwise). -/
def formatPercentNum (done total : Nat) : Nat :=
  if done = 0 then 0
  else
    let d := toDouble done total
    let n := 100 * d.1
    let s := natLog2 n - 52
    let m2 := rnhe n (2 ^ s)
    let e2 := d.2 + s
    if 0 ≤ e2 then m2 * 2 ^ e2.toNat else rnhe m2 (2 ^ (-e2).toNat)

/-- The percentage formula as the spec states it: `round(100 * done / total)`
on the exact rational, ties to even (Python's `round`). -/
def specRoundPercent (done total : Nat) : Nat :=
  rnhe (100 * done) total

/-! ### Resource formatter -/

/-- `format_resources` from the source: comma-join `name=value` over the
mapping's insertion order, skipping the internal keys in `omit_resources`
(default `_cores` and `_nodes`). Values are taken already rendered by
Python's `str`. -/
def format_resources (resources : List (String × String))
    (omit_resources : List String := ["_cores", "_nodes"]) : String :=
  String.intercalate ", "
    ((resources.filter (fun p => !(omit_resources.contains p.1))).map
      (fun p => p.1 ++ "=" ++ p.2))

/-- `format_resource_names` from the source: the sibling of
`format_resources` that joins only the names, with the same exclusion. -/
def format_resource_names (resources : List (String × String))
    (omit_resources : List String := ["_cores", "_nodes"]) : String :=
  String.intercalate ", "
    ((resources.filter (fun p => !(omit_resources.contains p.1))).map
      (fun p => p.1))

/-! ### Job-info rendering -/

/-- Fields of a `job_info` event, as read by the console handler. `msg`,
`log` and `reason` may be Python `None`; `shellcmd` may be the empty string
(falsy in the source's truthiness test). -/
structure JobInfo where
  name : String
  is_local : Bool
  input : List String
  output : List String
  log : Option String
  reason : Option String
  priority : Int
  threads : Int
  resources : List (String × String)
  shellcmd : String
  msg : Option String
  deriving DecidableEq, Repr

/-- `format_item` from the source, at `omit=None`, `valueformat=str`:
emits a tab-indented `item: value` line unless the value is `None`. -/
def format_item_opt (item : String) (value : Option String) : Option String :=
  match value with
  | none => none
  | some v => some ("\t" ++ item ++ ": " ++ v)

/-- `format_item` from the source, at `omit=[]`, `valueformat=", ".join`:
emits a tab-indented `item: v1, v2, ...` line unless the list is empty. -/
def format_item_list (item : String) (value : List String) : Option String :=
  if value = [] then none
  else some ("\t" ++ item ++ ": " ++ String.intercalate ", " value)

/-- `format_item` from the source, at a numeric omit value and
`valueformat=str`: emits a tab-indented `item: value` line unless the value
equals `omit`. -/
def format_item_num (item : String) (value omitVal : Int) : Option String :=
  if value = omitVal then none
  else some ("\t" ++ item ++ ": " ++ toString value)

/-- The lines yielded by the `job_info` generator inside `console_handler`,
in source order: header, `input`, `output`, `log`, `reason` (only when
`printreason` is configured), `priority` (omitted at 0), `threads` (omitted
at 1), and non-empty formatted resources. -/
def jobInfoLines (printreason : Bool) (j : JobInfo) : List String :=
  [(if j.is_local then "local" else "") ++ "rule " ++ j.name ++ ":"]
    ++ (format_item_list "input" j.input).toList
    ++ (format_item_list "output" j.output).toList
    ++ (format_item_opt "log" j.log).toList
    ++ (if printreason then (format_item_opt "reason" j.reason).toList else [])
    ++ (format_item_num "priority" j.priority 0).toList
    ++ (format_item_num "threads" j.threads 1).toList
    ++ (if format_resources j.resources = "" then []
        else ["\tresources: " ++ format_resources j.resources])

/-! ### The event logger and its default console handler -/

/-- The typed log events the `Logger` methods construct (each method tags
its keyword dictionary with the corresponding `level`). -/
inductive LogMsg where
  | info (msg : String)
  | debug (msg : String)
  | error (msg : String)
  | progress (done total : Nat)
  | resources_info (msg : String)
  | run_info (msg : String)
  | job_info (j : JobInfo)
  | d3dag (nodes links : List String)
  deriving DecidableEq, Repr

/-- Python runtime errors the handler can raise: reading a never-assigned
attribute raises `AttributeError`. -/
inductive PyError where
  | attributeError
  deriving DecidableEq, Repr

/-- The mutable state of the `Logger` singleton that `console_handler`
reads: `quiet` is `none` while the attribute has never been assigned
(the constructor does not initialize it). -/
structure LoggerState where
  quiet : Option Bool
  printshellcmds : Bool
  printreason : Bool
  deriving DecidableEq, Repr

/-- `Logger.__init__`: `printshellcmds` and `printreason` start `False`;
the `quiet` attribute is never assigned. -/
def Logger.init : LoggerState :=
  ⟨none, false, false⟩

/-- The state-mutating tail of `setup_logger`: assigns `quiet`,
`printshellcmds` and `printreason` on the logger singleton. -/
def setup_logger (_st : LoggerState)
    (quiet printshellcmds printreason : Bool) : LoggerState :=
  ⟨some quiet, printshellcmds, printreason⟩

/-- The progress message
`"\x7b\x7d of \x7b\x7d steps (\x7b:.0%\x7d) done".format(done, total, done / total)`. -/
def progressMsg (done total : Nat) : String :=
  toString done ++ " of " ++ toString total ++ " steps ("
    ++ toString (formatPercentNum done total) ++ "%) done"

/-- JSON text of the dictionary with keys `nodes` and `links` holding the
given already-serialized descriptor fragments (the `json.dumps` call in the
`d3dag` branch). -/
def d3dagSerialization (nodes links : List String) : String :=
  "\x7b\"nodes\": [" ++ String.intercalate ", " nodes ++ "], \"links\": ["
    ++ String.intercalate ", " links ++ "]\x7d"

/-- `Logger.console_handler`, the default snakemake log handler: dispatch
on the event's level tag, returning the calls made to the underlying
logging engine (or the `AttributeError` raised when a branch reads the
never-assigned `quiet` attribute). Branch by branch as in the source:
`info`, `resources_info` and `run_info` call `self.logger.warning`;
`error` calls `self.logger.error`; `debug` calls `self.logger.debug`;
`progress` (unless quiet) and `job_info` call `self.logger.info`; the
`d3dag` branch computes a JSON serialization and issues no call. -/
def console_handler (st : LoggerState) (m : LogMsg) :
    Except PyError (List (Level × String)) :=
  match m with
  | .info s => .ok [(.warning, s)]
  | .error s => .ok [(.error, s)]
  | .debug s => .ok [(.debug, s)]
  | .resources_info s => .ok [(.warning, s)]
  | .run_info s => .ok [(.warning, s)]
  | .progress done total =>
    match st.quiet with
    | none => .error .attributeError
    | some q =>
      if !q then .ok [(.info, progressMsg done total)] else .ok []
  | .job_info j =>
    match st.quiet with
    | none => .error .attributeError
    | some q =>
      let summary :=
        if !q then
          match j.msg with
          | some s => [(Level.info, s)]
          | none =>
            [(Level.info, String.intercalate "\n" (jobInfoLines st.printreason j))]
        else []
      let shell :=
        if st.printshellcmds && !(j.shellcmd == "") then
          [(Level.info, j.shellcmd)]
        else []
      .ok (summary ++ shell)
  | .d3dag nodes links =>
    let _ := d3dagSerialization nodes links
    .ok []

/-- `Logger.info`: tag the message and pass it to the handler. -/
def Logger.info (st : LoggerState) (msg : String) :=
  console_handler st (.info msg)

/-- `Logger.debug`. -/
def Logger.debug (st : LoggerState) (msg : String) :=
  console_handler st (.debug msg)

/-- `Logger.error`. -/
def Logger.error (st : LoggerState) (msg : String) :=
  console_handler st (.error msg)

/-- `Logger.progress`. -/
def Logger.progress (st : LoggerState) (done total : Nat) :=
  console_handler st (.progress done total)

/-- `Logger.resources_info`. -/
def Logger.resources_info (st : LoggerState) (msg : String) :=
  console_handler st (.resources_info msg)

/-- `Logger.run_info`. -/
def Logger.run_info (st : LoggerState) (msg : String) :=
  console_handler st (.run_info msg)

/-- `Logger.job_info`. -/
def Logger.job_info (st : LoggerState) (j : JobInfo) :=
  console_handler st (.job_info j)

/-- `Logger.d3dag`. -/
def Logger.d3dag (st : LoggerState) (nodes links : List String) :=
  console_handler st (.d3dag nodes links)

/-- The underlying logging engine's effect on the output stream: each call
appends its rendered message (one write per call). -/
def runCalls (stream : List String) (calls : List (Level × String)) :
    List String :=
  calls.foldl (fun acc c => acc ++ [c.2]) stream

/-! ### Colorizing stream handler -/

/-- The `colors` severity-name table of `ColorizingStreamHandler`:
WARNING→YELLOW(3), INFO→GREEN(2), DEBUG→BLUE(4), CRITICAL→RED(1),
ERROR→RED(1). -/
def colors (levelname : String) : Option Nat :=
  if levelname = "WARNING" then some 3
  else if levelname = "INFO" then some 2
  else if levelname = "DEBUG" then some 4
  else if levelname = "CRITICAL" then some 1
  else if levelname = "ERROR" then some 1
  else none

/-- `RESET_SEQ`. -/
def RESET_SEQ : String := "\x1b[0m"

/-- `COLOR_SEQ % n`. -/
def COLOR_SEQ (n : Nat) : String := "\x1b[" ++ toString n ++ "m"

/-- The configuration of one `ColorizingStreamHandler` after `__init__`. -/
structure CSHandler where
  nocolor : Bool
  timestamp : Bool
  deriving DecidableEq, Repr

/-- `ColorizingStreamHandler.__init__`: colour is disabled when the caller
asks for no colour, or the stream is not a tty, or the platform is
Windows. -/
def mkCSHandler (nocolor isTty isWindows timestamp : Bool) : CSHandler :=
  ⟨nocolor || !isTty || isWindows, timestamp⟩

/-- A formatted record as seen by `decorate`: its level name and its
already-formatted message. -/
structure LogRecord where
  levelname : String
  message : String
  deriving DecidableEq, Repr

/-- `ColorizingStreamHandler.decorate`: start from the record's message,
prepend the bracketed timestamp when configured (`asctime` stands for the
wall-clock string), and, when colour is active and the level name is in the
colour table, wrap the whole in `COLOR_SEQ % (30 + colour)` and
`RESET_SEQ`. -/
def decorate (h : CSHandler) (asctime : String) (r : LogRecord) : String :=
  let message := [r.message]
  let message :=
    if h.timestamp then ("[" ++ asctime ++ "] ") :: message else message
  let message :=
    match colors r.levelname with
    | some c =>
      if !h.nocolor then (COLOR_SEQ (30 + c) :: message) ++ [RESET_SEQ]
      else message
    | none => message
  String.join message

/-! ### Emission failure routing -/

/-- The exceptions the `try` body of `emit` (format, two writes, flush) can
raise, as the `except` clauses partition them: `BrokenPipeError`,
`KeyboardInterrupt`, `SystemExit`, or any other `Exception` (identified by
its name). -/
inductive PyExc where
  | brokenPipeError
  | keyboardInterrupt
  | systemExit
  | otherException (name : String)
  deriving DecidableEq, Repr

/-- What `emit` does with one record, observed by its caller. -/
inductive EmitOutcome where
  | ok
  | raised (e : PyExc)
  | swallowedSilently
  | handledInternally
  deriving DecidableEq, Repr

/-- `ColorizingStreamHandler.emit`'s exception routing, translated from its
`try`/`except` ladder: given whether the body raised (and what), report the
outcome. `except BrokenPipeError: raise e`; `except (KeyboardInterrupt,
SystemExit): pass`; `except Exception: self.handleError(record)`. -/
def emit (body : Option PyExc) : EmitOutcome :=
  match body with
  | none => .ok
  | some .brokenPipeError => .raised .brokenPipeError
  | some .keyboardInterrupt => .swallowedSilently
  | some .systemExit => .swallowedSilently
  | some (.otherException _) => .handledInternally

/-! ### String helper lemmas -/

/-- Strings with equal character data are equal. -/
lemma string_data_inj {a b : String} (h : a.data = b.data) : a = b := by
  cases a; cases b; exact congrArg String.mk h

/-- Appends of character lists with incomparable (neither-a-prefix) left
parts are distinct. -/
lemma list_append_ne :
    ∀ (p q a b : List Char), p.isPrefixOf q = false → q.isPrefixOf p = false →
      p ++ a ≠ q ++ b := by
  intro p
  induction p with
  | nil =>
    intro q a b h1 _ _
    simp [List.isPrefixOf] at h1
  | cons x p ih =>
    intro q a b h1 h2 heq
    cases q with
    | nil => simp [List.isPrefixOf] at h2
    | cons y q =>
      simp only [List.isPrefixOf, Bool.and_eq_false_iff, beq_eq_false_iff_ne,
        ne_eq] at h1 h2
      simp only [List.cons_append, List.cons.injEq] at heq
      rcases h1 with h1 | h1
      · exact h1 heq.1
      · rcases h2 with h2 | h2
        · exact h2 heq.1.symm
        · exact ih q a b h1 h2 heq.2

/-- Appends of strings with incomparable (neither-a-prefix) left parts are
distinct. -/
lemma string_append_ne (p q : String)
    (h1 : p.data.isPrefixOf q.data = false)
    (h2 : q.data.isPrefixOf p.data = false) (a b : String) :
    p ++ a ≠ q ++ b := by
  intro heq
  have hd := congrArg String.data heq
  rw [String.data_append, String.data_append] at hd
  exact list_append_ne _ _ _ _ h1 h2 hd

/-- The empty string is a left identity for append. -/
lemma empty_append (a : String) : "" ++ a = a := by
  cases a; rfl

/-- A string element belongs to an option's `toList` exactly when the
option holds it. -/
lemma mem_option_toList {x : String} {o : Option String} :
    x ∈ o.toList ↔ o = some x := by
  cases o <;> simp [Option.toList, eq_comm]

/-- String append is associative. -/
lemma str_append_assoc (a b c : String) : a ++ b ++ c = a ++ (b ++ c) :=
  string_data_inj (by simp [String.data_append])

/-- Appending the empty string on the right is the identity. -/
lemma append_empty (a : String) : a ++ "" = a :=
  string_data_inj (by rw [String.data_append]; exact List.append_nil _)

/-- Joining a singleton. -/
lemma join_one (a : String) : String.join [a] = a := by
  cases a; rfl

/-- Joining two strings. -/
lemma join_two (a b : String) : String.join [a, b] = a ++ b := by
  cases a; cases b; rfl

/-- Joining three strings. -/
lemma join_three (a b c : String) : String.join [a, b, c] = a ++ b ++ c := by
  cases a; cases b; cases c; rfl

/-- Joining four strings. -/
lemma join_four (a b c d : String) :
    String.join [a, b, c, d] = a ++ b ++ c ++ d := by
  cases a; cases b; cases c; cases d; rfl

/-- A line built over a distinctive prefix never equals the job header,
whose first character is `l` or `r`. -/
lemma ne_header (p a : String) (loc : Bool) (name : String)
    (h1 : p.data.isPrefixOf "local".data = false)
    (h2 : "local".data.isPrefixOf p.data = false)
    (h3 : p.data.isPrefixOf "rule ".data = false)
    (h4 : "rule ".data.isPrefixOf p.data = false) :
    p ++ a ≠ (if loc then "local" else "") ++ "rule " ++ name ++ ":" := by
  cases loc
  · intro h
    have e : ((if false then "local" else "") ++ "rule " ++ name ++ ":" : String)
        = "rule " ++ (name ++ ":") := by
      apply string_data_inj
      simp [String.data_append, show ("" : String).data = ([] : List Char) from rfl]
    exact string_append_ne p "rule " h3 h4 a (name ++ ":") (e ▸ h)
  · intro h
    have e : ((if true then "local" else "") ++ "rule " ++ name ++ ":" : String)
        = "local" ++ ("rule " ++ (name ++ ":")) := by
      apply string_data_inj
      simp [String.data_append]
    exact string_append_ne p "local" h1 h2 a ("rule " ++ (name ++ ":")) (e ▸ h)

/-- Membership in a list-valued `format_item`. -/
lemma mem_format_item_list {x item : String} {v : List String} :
    x ∈ (format_item_list item v).toList
      ↔ v ≠ [] ∧ x = "\t" ++ item ++ ": " ++ String.intercalate ", " v := by
  unfold format_item_list
  split <;> simp_all [mem_option_toList, eq_comm]

/-- An option-valued `format_item` produces a given line exactly when its
value is present and the line is the corresponding tagged line. -/
lemma format_item_opt_eq_some {x item : String} {o : Option String} :
    format_item_opt item o = some x
      ↔ ∃ v, o = some v ∧ x = "\t" ++ item ++ ": " ++ v := by
  cases o <;> simp [format_item_opt, eq_comm]

/-- Membership in an option-valued `format_item`. -/
lemma mem_format_item_opt {x item : String} {o : Option String} :
    x ∈ (format_item_opt item o).toList
      ↔ ∃ v, o = some v ∧ x = "\t" ++ item ++ ": " ++ v := by
  rw [mem_option_toList, format_item_opt_eq_some]

/-- Membership in a numeric `format_item`. -/
lemma mem_format_item_num {x item : String} {n ov : Int} :
    x ∈ (format_item_num item n ov).toList
      ↔ n ≠ ov ∧ x = "\t" ++ item ++ ": " ++ toString n := by
  unfold format_item_num
  split <;> simp_all [mem_option_toList, eq_comm]

/-- Membership in a boolean-guarded option list. -/
lemma mem_ite_toList {x : String} {c : Bool} {o : Option String} :
    x ∈ (if c then o.toList else []) ↔ c = true ∧ o = some x := by
  cases c <;> simp [mem_option_toList]

/-- Membership in a conditionally empty singleton. -/
lemma mem_ite_nil_singleton {x a : String} {c : Prop} [Decidable c] :
    x ∈ (if c then ([] : List String) else [a]) ↔ ¬c ∧ x = a := by
  split <;> simp_all

/-- Characterization of the lines produced by the `job_info` generator. -/
lemma mem_jobInfoLines {pr : Bool} {j : JobInfo} {x : String} :
    x ∈ jobInfoLines pr j ↔
      x = (if j.is_local then "local" else "") ++ "rule " ++ j.name ++ ":"
      ∨ j.input ≠ [] ∧ x = "\tinput: " ++ String.intercalate ", " j.input
      ∨ j.output ≠ [] ∧ x = "\toutput: " ++ String.intercalate ", " j.output
      ∨ (∃ v, j.log = some v ∧ x = "\tlog: " ++ v)
      ∨ (pr = true ∧ ∃ v, j.reason = some v ∧ x = "\treason: " ++ v)
      ∨ j.priority ≠ 0 ∧ x = "\tpriority: " ++ toString j.priority
      ∨ j.threads ≠ 1 ∧ x = "\tthreads: " ++ toString j.threads
      ∨ format_resources j.resources ≠ ""
          ∧ x = "\tresources: " ++ format_resources j.resources := by
  simp only [jobInfoLines, List.mem_append, List.mem_singleton,
    mem_format_item_list, mem_format_item_opt, mem_format_item_num,
    mem_ite_toList, mem_ite_nil_singleton, format_item_opt_eq_some,
    show ("\t" ++ "input" ++ ": " : String) = "\tinput: " from rfl,
    show ("\t" ++ "output" ++ ": " : String) = "\toutput: " from rfl,
    show ("\t" ++ "log" ++ ": " : String) = "\tlog: " from rfl,
    show ("\t" ++ "reason" ++ ": " : String) = "\treason: " from rfl,
    show ("\t" ++ "priority" ++ ": " : String) = "\tpriority: " from rfl,
    show ("\t" ++ "threads" ++ ": " : String) = "\tthreads: " from rfl, or_assoc]

/-! ### Claim theorems -/

/-- C1 (counterexample): the claim's formula `round(100*done/total)` does
not match the code at `done = 23`, `total = 40`: the console handler
renders `23 of 40 steps (57%) done` (CPython prints `57%` because the
double nearest 23/40 is slightly below 0.575), while
`round(100*23/40) = round(57.5) = 58`, so the claimed string would carry
`58%`. -/
theorem progress_percent_counterexample :
    console_handler (setup_logger Logger.init false false false)
        (.progress 23 40)
      = .ok [(Level.info, "23 of 40 steps (57%) done")]
    ∧ specRoundPercent 23 40 = 58
    ∧ ("23 of 40 steps (57%) done" : String)
        ≠ "23 of 40 steps (" ++ toString (specRoundPercent 23 40) ++ "%) done" :=
  ⟨rfl, by decide, by decide⟩

/-- C1 (amended): for progress events with `0 ≤ done ≤ total`, `total > 0`
and quiet not set, the console handler emits exactly the string
`done of total steps (p%) done` where `p` is `done/total` formatted as a
percentage with zero decimals in IEEE-754 double precision (round half to
even at each double rounding, as CPython does); on the spec's examples this
yields 33 for 1/3 and 30 for 3/10, but it can differ from
`round(100*done/total)` at double-rounding ties. -/
theorem progress_rendering (st : LoggerState) (done total : Nat)
    (hq : st.quiet = some false) (_h0 : 0 < total) (_hle : done ≤ total) :
    console_handler st (.progress done total)
      = .ok [(Level.info,
          toString done ++ " of " ++ toString total ++ " steps ("
            ++ toString (formatPercentNum done total) ++ "%) done")]
    ∧ formatPercentNum 1 3 = 33 ∧ formatPercentNum 3 10 = 30 := by
  refine ⟨?_, by decide, by decide⟩
  simp [console_handler, hq, progressMsg]

/-- Witness for C1's amended theorem at `done = 1`, `total = 3`. -/
theorem progress_rendering_witness :
    console_handler (setup_logger Logger.init false false false)
        (.progress 1 3)
      = .ok [(Level.info, "1 of 3 steps (33%) done")] := by
  have h := progress_rendering (setup_logger Logger.init false false false)
    1 3 rfl (by decide) (by decide)
  exact h.1.trans (by rfl)

/-- C2: with quiet set, a `job_info` event emits neither the structured
summary nor a `msg` override, but still emits the shell command at
informational severity exactly when `printshellcmds` is enabled and the
shell command is non-empty; a progress event emits nothing at all. -/
theorem quiet_suppression (st : LoggerState) (j : JobInfo) (d t : Nat)
    (hq : st.quiet = some true) :
    console_handler st (.job_info j)
      = .ok (if st.printshellcmds && !(j.shellcmd == "")
             then [(Level.info, j.shellcmd)] else [])
    ∧ console_handler st (.progress d t) = .ok [] := by
  constructor <;> simp [console_handler, hq]

/-- Witness for C2 at a quiet, `printshellcmds` configuration with a
non-empty shell command. -/
theorem quiet_suppression_witness :
    console_handler (setup_logger Logger.init true true false)
        (.job_info ⟨"a", false, [], [], none, none, 0, 1, [], "echo hi", none⟩)
      = .ok [(Level.info, "echo hi")]
    ∧ console_handler (setup_logger Logger.init true true false)
        (.progress 1 2)
      = .ok [] := by
  have h := quiet_suppression (setup_logger Logger.init true true false)
    ⟨"a", false, [], [], none, none, 0, 1, [], "echo hi", none⟩ 1 2 rfl
  exact ⟨h.1.trans (by rfl), h.2⟩

/-- C3: `emit` routes failures as the source's `except` ladder does: a
`BrokenPipeError` propagates to the caller, `KeyboardInterrupt` and
`SystemExit` are swallowed silently, and every other exception goes to the
generic internal error handler and never propagates. -/
theorem emit_error_routing :
    emit (some PyExc.brokenPipeError) = .raised PyExc.brokenPipeError
    ∧ emit (some PyExc.keyboardInterrupt) = .swallowedSilently
    ∧ emit (some PyExc.systemExit) = .swallowedSilently
    ∧ ∀ nm, emit (some (PyExc.otherException nm)) = .handledInternally
        ∧ ∀ e, emit (some (PyExc.otherException nm)) ≠ .raised e := by
  refine ⟨rfl, rfl, rfl, fun nm => ⟨rfl, fun e h => ?_⟩⟩
  simp [emit] at h

/-- C4 (counterexample): an `info` event is not rendered at informational
severity: the handler calls the engine's `warning` method, and the warning
severity differs from the informational one. -/
theorem info_severity_counterexample :
    console_handler Logger.init (.info "x") = .ok [(Level.warning, "x")]
    ∧ Level.warning ≠ Level.info :=
  ⟨rfl, by decide⟩

/-- C4 (amended): for every `info`, `resources_info` and `run_info` event,
the default console handler renders the message at warning severity,
unconditionally; warning severity is visible under the default
informational visibility threshold. -/
theorem info_events_severity (st : LoggerState) (s : String) :
    console_handler st (.info s) = .ok [(Level.warning, s)]
    ∧ console_handler st (.resources_info s) = .ok [(Level.warning, s)]
    ∧ console_handler st (.run_info s) = .ok [(Level.warning, s)]
    ∧ visibleAt Level.info Level.warning = true :=
  ⟨rfl, rfl, rfl, rfl⟩

/-- C5: in the structured job summary, the priority line appears exactly
when priority is nonzero, the threads line exactly when threads is not 1,
and a reason line exactly when `printreason` is configured and the reason
is present. -/
theorem job_info_line_conditions (pr : Bool) (j : JobInfo) :
    (("\tpriority: " ++ toString j.priority) ∈ jobInfoLines pr j
      ↔ j.priority ≠ 0)
    ∧ (("\tthreads: " ++ toString j.threads) ∈ jobInfoLines pr j
      ↔ j.threads ≠ 1)
    ∧ ((∃ r, j.reason = some r ∧ ("\treason: " ++ r) ∈ jobInfoLines pr j)
      ↔ pr = true ∧ j.reason ≠ none) := by
  refine ⟨⟨?_, ?_⟩, ⟨?_, ?_⟩, ⟨?_, ?_⟩⟩
  · intro h
    by_contra h0
    rw [h0, mem_jobInfoLines] at h
    rcases h with h | ⟨_, h⟩ | ⟨_, h⟩ | ⟨v, _, h⟩ | ⟨_, v, _, h⟩ | ⟨hne, _⟩
      | ⟨_, h⟩ | ⟨_, h⟩
    · exact ne_header _ _ _ _ (by decide) (by decide) (by decide) (by decide) h
    · exact string_append_ne _ _ (by decide) (by decide) _ _ h
    · exact string_append_ne _ _ (by decide) (by decide) _ _ h
    · exact string_append_ne _ _ (by decide) (by decide) _ _ h
    · exact string_append_ne _ _ (by decide) (by decide) _ _ h
    · exact hne h0
    · exact string_append_ne _ _ (by decide) (by decide) _ _ h
    · exact string_append_ne _ _ (by decide) (by decide) _ _ h
  · intro hne
    rw [mem_jobInfoLines]
    exact Or.inr (Or.inr (Or.inr (Or.inr (Or.inr (Or.inl ⟨hne, rfl⟩)))))
  · intro h
    by_contra h0
    rw [h0, mem_jobInfoLines] at h
    rcases h with h | ⟨_, h⟩ | ⟨_, h⟩ | ⟨v, _, h⟩ | ⟨_, v, _, h⟩ | ⟨_, h⟩
      | ⟨hne, _⟩ | ⟨_, h⟩
    · exact ne_header _ _ _ _ (by decide) (by decide) (by decide) (by decide) h
    · exact string_append_ne _ _ (by decide) (by decide) _ _ h
    · exact string_append_ne _ _ (by decide) (by decide) _ _ h
    · exact string_append_ne _ _ (by decide) (by decide) _ _ h
    · exact string_append_ne _ _ (by decide) (by decide) _ _ h
    · exact string_append_ne _ _ (by decide) (by decide) _ _ h
    · exact hne h0
    · exact string_append_ne _ _ (by decide) (by decide) _ _ h
  · intro hne
    rw [mem_jobInfoLines]
    exact Or.inr (Or.inr (Or.inr (Or.inr (Or.inr (Or.inr
      (Or.inl ⟨hne, rfl⟩))))))
  · intro h
    obtain ⟨r, hr, hmem⟩ := h
    rw [mem_jobInfoLines] at hmem
    refine ⟨?_, by simp [hr]⟩
    rcases hmem with h | ⟨_, h⟩ | ⟨_, h⟩ | ⟨v, _, h⟩ | ⟨hpr, _⟩ | ⟨_, h⟩
      | ⟨_, h⟩ | ⟨_, h⟩
    · exact absurd h
        (ne_header _ _ _ _ (by decide) (by decide) (by decide) (by decide))
    · exact absurd h (string_append_ne _ _ (by decide) (by decide) _ _)
    · exact absurd h (string_append_ne _ _ (by decide) (by decide) _ _)
    · exact absurd h (string_append_ne _ _ (by decide) (by decide) _ _)
    · exact hpr
    · exact absurd h (string_append_ne _ _ (by decide) (by decide) _ _)
    · exact absurd h (string_append_ne _ _ (by decide) (by decide) _ _)
    · exact absurd h (string_append_ne _ _ (by decide) (by decide) _ _)
  · intro h
    obtain ⟨hpr, hne⟩ := h
    obtain ⟨r, hr⟩ := Option.ne_none_iff_exists'.mp hne
    refine ⟨r, hr, ?_⟩
    rw [mem_jobInfoLines]
    exact Or.inr (Or.inr (Or.inr (Or.inr (Or.inl ⟨hpr, r, hr, rfl⟩))))

/-- C6: `format_resources` comma-joins the `name=value` pairs in insertion
order excluding the `_cores` and `_nodes` keys; a mapping empty after the
exclusion yields the empty string, and the spec's example renders as
`mem_mb=100`. -/
theorem format_resources_spec (res : List (String × String)) :
    format_resources res
      = String.intercalate ", "
          ((res.filter fun p => !(p.1 == "_cores" || p.1 == "_nodes")).map
            fun p => p.1 ++ "=" ++ p.2)
    ∧ format_resources [("_cores", "4"), ("mem_mb", "100"), ("_nodes", "1")]
        = "mem_mb=100"
    ∧ ((res.filter fun p => !(p.1 == "_cores" || p.1 == "_nodes")) = []
        → format_resources res = "") := by
  have hfil : (res.filter fun p => !(["_cores", "_nodes"].contains p.1))
      = res.filter fun p => !(p.1 == "_cores" || p.1 == "_nodes") := by
    apply List.filter_congr
    intro p _
    cases h1 : p.1 == "_cores" <;> cases h2 : p.1 == "_nodes" <;>
      simp [List.contains, List.elem, h1, h2]
  refine ⟨?_, by decide, fun h => ?_⟩
  · rw [format_resources, hfil]
  · rw [format_resources, hfil, h]
    rfl

/-- Witness for C6's empty-after-exclusion conjunct. -/
theorem format_resources_spec_witness :
    format_resources [("_cores", "1"), ("_nodes", "2")] = "" :=
  (format_resources_spec _).2.2 (by decide)

/-- C7: colouring is disabled exactly when the `nocolor` flag is set, the
stream is not an interactive terminal, or the platform is Windows; when
colouring is active and the record's level name is in the colour table the
decorated text is the ANSI sequence for `30 + colour`, then the optional
timestamp prefix, the message body and the reset sequence; otherwise the
optionally timestamped message is plain. -/
theorem color_decision_decoration (nocolor isTty isWindows timestamp : Bool)
    (asctime : String) (r : LogRecord) :
    ((mkCSHandler nocolor isTty isWindows timestamp).nocolor
        = (nocolor || !isTty || isWindows))
    ∧ (∀ c, colors r.levelname = some c
        → (nocolor || !isTty || isWindows) = false
        → decorate (mkCSHandler nocolor isTty isWindows timestamp) asctime r
          = "\x1b[" ++ toString (30 + c) ++ "m"
              ++ (if timestamp then "[" ++ asctime ++ "] " else "")
              ++ r.message ++ "\x1b[0m")
    ∧ ((nocolor || !isTty || isWindows) = true ∨ colors r.levelname = none
        → decorate (mkCSHandler nocolor isTty isWindows timestamp) asctime r
          = (if timestamp then "[" ++ asctime ++ "] " else "") ++ r.message) := by
  refine ⟨rfl, fun c hc hnc => ?_, fun h => ?_⟩
  · cases timestamp <;>
      simp [decorate, mkCSHandler, hc, hnc, COLOR_SEQ, RESET_SEQ,
        join_three, join_four, str_append_assoc, empty_append, append_empty]
  · rcases h with h | h
    · cases hc : colors r.levelname <;> cases timestamp <;>
        simp [decorate, mkCSHandler, h, hc, join_one, join_two,
          str_append_assoc, empty_append]
    · cases timestamp <;>
        simp [decorate, mkCSHandler, h, join_one, join_two,
          str_append_assoc, empty_append]

/-- Witness for C7 at a colourable INFO record with timestamping, and at a
non-tty stream without timestamping. -/
theorem color_decision_decoration_witness :
    decorate (mkCSHandler false true false true) "T" ⟨"INFO", "hi"⟩
      = "\x1b[32m[T] hi\x1b[0m"
    ∧ decorate (mkCSHandler false false false false) "T" ⟨"INFO", "hi"⟩
      = "hi" := by
  have h := color_decision_decoration false true false true "T" ⟨"INFO", "hi"⟩
  have h2 := color_decision_decoration false false false false "T" ⟨"INFO", "hi"⟩
  exact ⟨(h.2.1 2 rfl rfl).trans (by rfl), (h2.2.2 (Or.inl rfl)).trans (by rfl)⟩

/-- C8: a `d3dag` event makes no call to the underlying logging engine,
so handling it leaves any output stream unchanged. -/
theorem d3dag_no_output (st : LoggerState) (nodes links stream : List String) :
    console_handler st (.d3dag nodes links) = .ok []
    ∧ runCalls stream [] = stream :=
  ⟨rfl, rfl⟩

/-- C10: the `Logger` constructor never initializes `quiet` (only
`setup_logger` assigns it), so on a fresh logger `progress` and `job_info`
raise `AttributeError` when the console handler reads `self.quiet`, while
`info`, `debug`, `error`, `resources_info` and `run_info` succeed. -/
theorem fresh_logger_quiet_attribute (d t : Nat) (j : JobInfo) (s : String) :
    Logger.init.quiet = none
    ∧ (∀ st q a b, (setup_logger st q a b).quiet = some q)
    ∧ Logger.progress Logger.init d t = .error PyError.attributeError
    ∧ Logger.job_info Logger.init j = .error PyError.attributeError
    ∧ (∃ c, Logger.info Logger.init s = .ok c)
    ∧ (∃ c, Logger.debug Logger.init s = .ok c)
    ∧ (∃ c, Logger.error Logger.init s = .ok c)
    ∧ (∃ c, Logger.resources_info Logger.init s = .ok c)
    ∧ (∃ c, Logger.run_info Logger.init s = .ok c) :=
  ⟨rfl, fun _ _ _ _ => rfl, rfl, rfl, ⟨_, rfl⟩, ⟨_, rfl⟩, ⟨_, rfl⟩,
    ⟨_, rfl⟩, ⟨_, rfl⟩⟩

end Snakemake
